import Mathlib

/-!
Shallow embedding of the retry-with-backoff wrapper of the
`aws-prompt-engineering` repository.

The repository's only control-flow logic is `retry_with_backoff`
(src/utils.py, lines 15-30), duplicated verbatim in src/prompts.py
(lines 13-26):

    def retry_with_backoff(func, max_retries=3):
        def wrapper(*args, **kwargs):
            for attempt in range(max_retries):
                try:
                    return func(*args, **kwargs)
                except Exception as e:
                    if "(ThrottlingException)" in str(e) and attempt < max_retries - 1:
                        wait_time = (attempt + 1) * 2
                        print(f"Rate limited. Waiting {wait_time} seconds...")
                        time.sleep(wait_time)
                        continue
                    raise e
        return wrapper

We model the wrapped operation as a function from the 0-based attempt
index to an outcome (success with a value, or an exception carrying its
string representation `str(e)`).  A run of the wrapper is recorded as a
trace: the number of invocations of the operation, the list of sleep
durations, the list of printed notices, and the final outcome (a
returned value, a raised exception, or Python's implicit `None` return
when the `for` loop body never runs).  `max_retries` is a Python
integer, modelled as `Int`; `range(max_retries)` performs
`max_retries.toNat` iterations.
-/

namespace AwsPromptEng

/-- Outcome of a single invocation of the wrapped operation: either the
operation returns a value, or it raises an exception whose `str(e)` is
the recorded message. -/
inductive Outcome (α : Type) where
  | ok (v : α)
  | err (e : String)
deriving DecidableEq

/-- Final outcome of one call of the wrapper: a value returned by the
operation, an exception re-raised by `raise e`, or the implicit `None`
returned when the `for` loop runs zero iterations. -/
inductive RetOutcome (α : Type) where
  | value (v : α)
  | raised (e : String)
  | implicitNone
deriving DecidableEq

/-- Observable trace of one call of the wrapper: the number of times the
wrapped operation was invoked, the durations passed to `time.sleep`, the
lines printed, and the final outcome. -/
@[ext]
structure Trace (α : Type) where
  calls : Nat
  waits : List Nat
  notices : List String
  outcome : RetOutcome α
deriving DecidableEq

namespace Utils

/-- The literal throttling marker from src/utils.py line 23. -/
def throttlingMarker : String := "(ThrottlingException)"

/-- Python's substring test `"(ThrottlingException)" in str(e)`
(src/utils.py line 23). -/
def containsThrottlingMarker (e : String) : Bool :=
  decide (throttlingMarker.toList <:+: e.toList)

/-- The line printed before each sleep (src/utils.py line 25):
`f"Rate limited. Waiting {wait_time} seconds..."`. -/
def rateLimitNotice (w : Nat) : String :=
  "Rate limited. Waiting " ++ toString w ++ " seconds..."

/-- The `for attempt in range(max_retries)` loop of `wrapper`
(src/utils.py lines 18-28).  `attempt` is the current loop variable and
`remaining` the number of iterations `range(max_retries)` still has to
produce; the top-level call sets `attempt = 0` and
`remaining = max_retries.toNat`, the length of `range(max_retries)`. -/
def loop (op : Nat → Outcome α) (max_retries : Int) :
    Nat → Nat → Trace α
  | _, 0 => ⟨0, [], [], .implicitNone⟩
  | attempt, remaining + 1 =>
    match op attempt with
    | .ok v => ⟨1, [], [], .value v⟩
    | .err e =>
      if containsThrottlingMarker e && decide ((attempt : Int) < max_retries - 1) then
        let t := loop op max_retries (attempt + 1) remaining
        ⟨t.calls + 1, (attempt + 1) * 2 :: t.waits,
          rateLimitNotice ((attempt + 1) * 2) :: t.notices, t.outcome⟩
      else ⟨1, [], [], .raised e⟩

/-- `retry_with_backoff` of src/utils.py (lines 15-30), applied to an
operation and an explicit `max_retries`: run the wrapper once and record
its trace. -/
def retry_with_backoff (op : Nat → Outcome α) (max_retries : Int) : Trace α :=
  loop op max_retries 0 max_retries.toNat

/-- The default value of the `max_retries` parameter
(src/utils.py line 15: `max_retries=3`). -/
def defaultMaxRetries : Int := 3

/-- `retry_with_backoff` called with `max_retries` omitted: the default
of the signature is used (src/utils.py line 15). -/
def retry_with_backoff_default (op : Nat → Outcome α) : Trace α :=
  retry_with_backoff op defaultMaxRetries

theorem loop_zero (op : Nat → Outcome α) (N : Int) (a : Nat) :
    loop op N a 0 = ⟨0, [], [], .implicitNone⟩ := rfl

theorem loop_ok {op : Nat → Outcome α} {a : Nat} {v : α} (N : Int) (r : Nat)
    (hop : op a = .ok v) :
    loop op N a (r + 1) = ⟨1, [], [], .value v⟩ := by
  simp [loop, hop]

theorem loop_err_raise {op : Nat → Outcome α} {a : Nat} {e : String} (N : Int) (r : Nat)
    (hop : op a = .err e)
    (hc : ¬(containsThrottlingMarker e = true ∧ (a : Int) < N - 1)) :
    loop op N a (r + 1) = ⟨1, [], [], .raised e⟩ := by
  rw [Classical.not_and_iff_or_not_not] at hc
  rcases hc with hc | hc
  · simp [loop, hop, hc]
  · simp [loop, hop, hc]

theorem loop_err_retry {op : Nat → Outcome α} {a : Nat} {e : String} (N : Int) (r : Nat)
    (hop : op a = .err e)
    (hm : containsThrottlingMarker e = true) (hlt : (a : Int) < N - 1) :
    loop op N a (r + 1) =
      ⟨(loop op N (a + 1) r).calls + 1,
       (a + 1) * 2 :: (loop op N (a + 1) r).waits,
       rateLimitNotice ((a + 1) * 2) :: (loop op N (a + 1) r).notices,
       (loop op N (a + 1) r).outcome⟩ := by
  simp [loop, hop, hm, hlt]

theorem loop_calls_pos (op : Nat → Outcome α) (N : Int) (a r : Nat)
    (hr : 1 ≤ r) : 1 ≤ (loop op N a r).calls := by
  obtain ⟨r', rfl⟩ : ∃ r', r = r' + 1 := ⟨r - 1, by omega⟩
  rcases hop : op a with v | e
  · rw [loop_ok N r' hop]
  · by_cases hc : containsThrottlingMarker e = true ∧ (a : Int) < N - 1
    · rw [loop_err_retry N r' hop hc.1 hc.2]
      exact Nat.le_add_left 1 _
    · rw [loop_err_raise N r' hop hc]

/-- Running the loop through a block of `m` consecutive attempts that
all fail with the throttling marker, while strictly more than `m`
iterations remain, performs the `m` corresponding waits and notices and
then continues at attempt `a + m`. -/
theorem loop_throttle_seg (op : Nat → Outcome α) (N : Int) :
    ∀ (m a r : Nat), ((a : Int) + r = N) → (m + 1 ≤ r) →
    (∀ i, i < m → ∃ e, op (a + i) = .err e ∧ containsThrottlingMarker e = true) →
    loop op N a r =
      ⟨(loop op N (a + m) (r - m)).calls + m,
       (List.range m).map (fun j => (a + j + 1) * 2) ++ (loop op N (a + m) (r - m)).waits,
       (List.range m).map (fun j => rateLimitNotice ((a + j + 1) * 2)) ++
         (loop op N (a + m) (r - m)).notices,
       (loop op N (a + m) (r - m)).outcome⟩ := by
  intro m
  induction m with
  | zero => intro a r _ _ _; simp
  | succ m ih =>
    intro a r hinv hr hall
    obtain ⟨e0, hop0, hm0⟩ := by simpa using hall 0 (Nat.succ_pos m)
    obtain ⟨r', rfl⟩ : ∃ r', r = r' + 1 := ⟨r - 1, by omega⟩
    rw [loop_err_retry N r' hop0 hm0 (by omega)]
    rw [ih (a + 1) r' (by push_cast at hinv ⊢; omega) (by omega)
      (fun i hi => by
        obtain ⟨e, he, hme⟩ := hall (i + 1) (by omega)
        exact ⟨e, by rwa [show a + 1 + i = a + (i + 1) by omega], hme⟩)]
    have hw : (List.range (m + 1)).map (fun j => (a + j + 1) * 2) =
        (a + 1) * 2 :: (List.range m).map (fun j => (a + 1 + j + 1) * 2) := by
      simp only [List.range_succ_eq_map, List.map_cons, List.map_map, List.cons.injEq]
      refine ⟨by simp, List.map_congr_left (fun j _ => ?_)⟩
      simp only [Function.comp_apply]
      omega
    have hn : (List.range (m + 1)).map (fun j => rateLimitNotice ((a + j + 1) * 2)) =
        rateLimitNotice ((a + 1) * 2) ::
          (List.range m).map (fun j => rateLimitNotice ((a + 1 + j + 1) * 2)) := by
      simp only [List.range_succ_eq_map, List.map_cons, List.map_map, List.cons.injEq]
      refine ⟨by simp, List.map_congr_left (fun j _ => ?_)⟩
      simp only [Function.comp_apply]
      congr 1
      omega
    rw [hw, hn, show a + (m + 1) = a + 1 + m by omega,
       show r' + 1 - (m + 1) = r' - m by omega]
    simp [List.cons_append]
    omega

/-- Whenever the loop ends in `raise e`, at least one invocation was
made and the last invocation (at attempt `a + calls - 1`) is the one
that raised `e`. -/
theorem loop_raised_last (op : Nat → Outcome α) (N : Int) :
    ∀ (r a : Nat) (e : String), (loop op N a r).outcome = .raised e →
      1 ≤ (loop op N a r).calls ∧
        op (a + ((loop op N a r).calls - 1)) = .err e := by
  intro r
  induction r with
  | zero => intro a e h; simp [loop_zero] at h
  | succ r ih =>
    intro a e h
    rcases hop : op a with v | e'
    · rw [loop_ok N r hop] at h ⊢
      simp at h
    · by_cases hc : containsThrottlingMarker e' = true ∧ (a : Int) < N - 1
      · rw [loop_err_retry N r hop hc.1 hc.2] at h ⊢
        obtain ⟨hcalls, hlast⟩ := ih (a + 1) e h
        refine ⟨by simp, ?_⟩
        convert hlast using 2
        simp
        omega
      · rw [loop_err_raise N r hop hc] at h ⊢
        simp at h
        subst h
        exact ⟨le_refl 1, by simpa using hop⟩

/-- Characterization of every recorded wait: the `j`-th wait of the
loop started at attempt `a` follows a throttling failure of attempt
`a + j` that is not the final attempt, lasts `(a + j + 1) * 2` seconds,
and is followed by at least one further invocation.  The hypothesis
`(a : Int) + r = N` is the invariant of the top-level call
(`a = 0`, `r = max_retries.toNat`, `max_retries ≥ 0`). -/
theorem loop_waits_spec (op : Nat → Outcome α) (N : Int) :
    ∀ (r a j : Nat), ((a : Int) + r = N) →
      j < (loop op N a r).waits.length →
      ∃ e, op (a + j) = .err e ∧ containsThrottlingMarker e = true ∧
        ((a + j : Nat) : Int) < N - 1 ∧
        (loop op N a r).waits.getD j 0 = (a + j + 1) * 2 ∧
        j + 2 ≤ (loop op N a r).calls := by
  intro r
  induction r with
  | zero => intro a j _ h; simp [loop_zero] at h
  | succ r ih =>
    intro a j hinv h
    rcases hop : op a with v | e'
    · rw [loop_ok N r hop] at h
      simp at h
    · by_cases hc : containsThrottlingMarker e' = true ∧ (a : Int) < N - 1
      · rw [loop_err_retry N r hop hc.1 hc.2] at h ⊢
        have hr1 : 1 ≤ r := by
          have := hc.2
          push_cast at hinv
          omega
        rcases j with _ | j
        · refine ⟨e', by simpa using hop, hc.1, by simpa using hc.2, by simp, ?_⟩
          have := loop_calls_pos op N (a + 1) r hr1
          simp
          omega
        · simp only [List.length_cons, Nat.add_lt_add_iff_right] at h
          obtain ⟨e, he, hme, hlt, hget, hcalls⟩ :=
            ih (a + 1) j (by push_cast at hinv ⊢; omega) h
          refine ⟨e, ?_, hme, ?_, ?_, ?_⟩
          · rwa [show a + (j + 1) = a + 1 + j by omega]
          · push_cast at hlt ⊢
            omega
          · rw [show a + (j + 1) + 1 = a + 1 + j + 1 by omega]
            simpa using hget
          · simp
            omega
      · rw [loop_err_raise N r hop hc] at h
        simp at h

end Utils

namespace Prompts

/-- The literal throttling marker from src/prompts.py line 20. -/
def throttlingMarker : String := "(ThrottlingException)"

/-- Python's substring test `"(ThrottlingException)" in str(e)`
(src/prompts.py line 20). -/
def containsThrottlingMarker (e : String) : Bool :=
  decide (throttlingMarker.toList <:+: e.toList)

/-- The line printed before each sleep (src/prompts.py line 22). -/
def rateLimitNotice (w : Nat) : String :=
  "Rate limited. Waiting " ++ toString w ++ " seconds..."

/-- The `for attempt in range(max_retries)` loop of `wrapper` in
src/prompts.py (lines 15-25), embedded exactly as `Utils.loop`. -/
def loop (op : Nat → Outcome α) (max_retries : Int) :
    Nat → Nat → Trace α
  | _, 0 => ⟨0, [], [], .implicitNone⟩
  | attempt, remaining + 1 =>
    match op attempt with
    | .ok v => ⟨1, [], [], .value v⟩
    | .err e =>
      if containsThrottlingMarker e && decide ((attempt : Int) < max_retries - 1) then
        let t := loop op max_retries (attempt + 1) remaining
        ⟨t.calls + 1, (attempt + 1) * 2 :: t.waits,
          rateLimitNotice ((attempt + 1) * 2) :: t.notices, t.outcome⟩
      else ⟨1, [], [], .raised e⟩

/-- `retry_with_backoff` of src/prompts.py (lines 13-26). -/
def retry_with_backoff (op : Nat → Outcome α) (max_retries : Int) : Trace α :=
  loop op max_retries 0 max_retries.toNat

theorem containsThrottlingMarker_eq_utils (e : String) :
    containsThrottlingMarker e = Utils.containsThrottlingMarker e := rfl

theorem rateLimitNotice_eq_utils (w : Nat) :
    rateLimitNotice w = Utils.rateLimitNotice w := rfl

theorem loop_eq_utils (op : Nat → Outcome α) (max_retries : Int) :
    ∀ (r a : Nat), loop op max_retries a r = Utils.loop op max_retries a r := by
  intro r
  induction r with
  | zero => intro a; rfl
  | succ r ih =>
    intro a
    rcases hop : op a with v | e
    · simp [loop, Utils.loop, hop]
    · simp only [loop, Utils.loop, hop, ih, containsThrottlingMarker_eq_utils,
        rateLimitNotice_eq_utils]

end Prompts

/-- Claim C1: for every operation that fails with the throttling marker
on every attempt and every positive integer `N`, calling the invoker
with `max_retries = N` invokes the operation exactly `N` times, waits
`(i + 1) * 2` seconds after the failure of attempt `i` for each
`i in [0, N-1)` (so `N - 1` waits of `2, 4, ..., 2*(N-1)` seconds), and
finally re-raises the last throttling failure. -/
theorem C1_throttle_exhausts_all_attempts (op : Nat → Outcome α)
    (msgs : Nat → String) (N : Nat) (hN : 0 < N)
    (hop : ∀ i, op i = .err (msgs i))
    (hm : ∀ i, Utils.containsThrottlingMarker (msgs i) = true) :
    Utils.retry_with_backoff op (N : Int) =
      ⟨N, (List.range (N - 1)).map (fun i => (i + 1) * 2),
          (List.range (N - 1)).map (fun i => Utils.rateLimitNotice ((i + 1) * 2)),
          .raised (msgs (N - 1))⟩ := by
  unfold Utils.retry_with_backoff
  rw [show ((N : Nat) : Int).toNat = N by omega]
  rw [Utils.loop_throttle_seg op N (N - 1) 0 N (by omega) (by omega)
    (fun i _ => ⟨msgs (0 + i), by rw [hop], hm _⟩)]
  rw [show 0 + (N - 1) = N - 1 by omega, show N - (N - 1) = 0 + 1 by omega]
  rw [Utils.loop_err_raise (N : Int) 0 (hop (N - 1))
    (by rintro ⟨-, hlt⟩; omega)]
  refine Trace.ext (by simp; omega) (by simp) (by simp) rfl

/-- Claim C2: for every operation whose failure message does not
contain the substring `(ThrottlingException)`, and every `max_retries`
in the spec's positive domain, the invoker invokes the operation
exactly once, performs no wait, and re-raises that failure. -/
theorem C2_terminal_failure_immediate (op : Nat → Outcome α) (e : String)
    (max_retries : Int) (hN : 1 ≤ max_retries)
    (hop : op 0 = .err e)
    (hm : ¬ Utils.throttlingMarker.toList <:+: e.toList) :
    Utils.retry_with_backoff op max_retries = ⟨1, [], [], .raised e⟩ := by
  unfold Utils.retry_with_backoff
  rw [show max_retries.toNat = (max_retries.toNat - 1) + 1 by omega]
  exact Utils.loop_err_raise max_retries _ hop (by
    rintro ⟨hc, -⟩
    simp only [Utils.containsThrottlingMarker, decide_eq_true_eq] at hc
    exact hm hc)

/-- Claim C3: for every operation that succeeds on its first invocation
and every `max_retries` in the spec's positive domain, the invoker
invokes the operation exactly once, performs zero waits, and returns
the operation's result exactly as produced (for an arbitrary result
type, with no transformation, wrapping, or inspection). -/
theorem C3_first_attempt_success (op : Nat → Outcome α) (v : α)
    (max_retries : Int) (hN : 1 ≤ max_retries) (hop : op 0 = .ok v) :
    Utils.retry_with_backoff op max_retries = ⟨1, [], [], .value v⟩ := by
  unfold Utils.retry_with_backoff
  rw [show max_retries.toNat = (max_retries.toNat - 1) + 1 by omega]
  exact Utils.loop_ok max_retries _ hop

/-- Claim C4: a failure raised by the wrapped operation is classified
retryable (a further invocation happens when budget remains) if and
only if its surfaced message contains the literal substring
`(ThrottlingException)`; a failure lacking it is terminal. -/
theorem C4_throttling_classification (op : Nat → Outcome α) (e : String)
    (max_retries : Int) (hN : 2 ≤ max_retries) (hop : op 0 = .err e) :
    2 ≤ (Utils.retry_with_backoff op max_retries).calls ↔
      Utils.throttlingMarker.toList <:+: e.toList := by
  unfold Utils.retry_with_backoff
  rw [show max_retries.toNat = (max_retries.toNat - 2) + 1 + 1 by omega]
  by_cases hc : Utils.containsThrottlingMarker e = true
  · rw [Utils.loop_err_retry max_retries _ hop hc (by omega)]
    have h1 := Utils.loop_calls_pos op max_retries 1
      (max_retries.toNat - 2 + 1) (by omega)
    refine iff_of_true (by simp; omega)
      (by simpa only [Utils.containsThrottlingMarker, decide_eq_true_eq] using hc)
  · rw [Utils.loop_err_raise max_retries _ hop (fun h1 => hc h1.1)]
    refine iff_of_false (by simp)
      (by simpa only [Utils.containsThrottlingMarker, decide_eq_true_eq] using hc)

/-- Claim C5: whenever the invoker terminates with a failure, the
failure delivered to the caller is exactly the failure raised by the
last invocation of the wrapped operation (the invocation with 0-based
index `calls - 1`), not a synthetic substitute. -/
theorem C5_raised_failure_is_last (op : Nat → Outcome α)
    (max_retries : Int) (e : String)
    (h : (Utils.retry_with_backoff op max_retries).outcome = .raised e) :
    1 ≤ (Utils.retry_with_backoff op max_retries).calls ∧
      op ((Utils.retry_with_backoff op max_retries).calls - 1) = .err e := by
  have h2 := Utils.loop_raised_last op max_retries max_retries.toNat 0 e h
  simpa using h2

/-- Claim C6: for every operation that fails with the throttling marker
on its first `k` invocations (`k < max_retries`) and succeeds on
invocation `k + 1`, the invoker returns that success after exactly `k`
waits of durations `2, 4, ..., 2k`. -/
theorem C6_late_success_after_throttling (op : Nat → Outcome α)
    (msgs : Nat → String) (v : α) (k N : Nat) (hk : k < N)
    (hop : ∀ i, i < k → op i = .err (msgs i))
    (hm : ∀ i, i < k → Utils.containsThrottlingMarker (msgs i) = true)
    (hsucc : op k = .ok v) :
    Utils.retry_with_backoff op (N : Int) =
      ⟨k + 1, (List.range k).map (fun i => (i + 1) * 2),
          (List.range k).map (fun i => Utils.rateLimitNotice ((i + 1) * 2)),
          .value v⟩ := by
  unfold Utils.retry_with_backoff
  rw [show ((N : Nat) : Int).toNat = N by omega]
  rw [Utils.loop_throttle_seg op N k 0 N (by omega) (by omega)
    (fun i hi => ⟨msgs i, by simpa using hop i hi, hm i hi⟩)]
  rw [show 0 + k = k by omega, show N - k = (N - k - 1) + 1 by omega]
  rw [Utils.loop_ok (N : Int) (N - k - 1) hsucc]
  refine Trace.ext (by simp; omega) (by simp) (by simp) rfl

/-- Claim C7: calling the invoker with `max_retries` omitted behaves
identically (same attempts, waits, notices, and final outcome) to
calling it with `max_retries = 3`. -/
theorem C7_default_is_three (op : Nat → Outcome α) :
    Utils.retry_with_backoff_default op = Utils.retry_with_backoff op 3 := rfl

/-- Claim C8: a wait is performed only between a retryable failure on a
non-final attempt and the subsequent attempt: the `j`-th wait of a run
follows a throttling failure of attempt `j` with `j < max_retries - 1`,
lasts `(j + 1) * 2` seconds, and is followed by a further invocation
(at least `j + 2` invocations happen in total). -/
theorem C8_wait_only_between_attempts (op : Nat → Outcome α)
    (max_retries : Int) (j : Nat)
    (h : j < (Utils.retry_with_backoff op max_retries).waits.length) :
    ∃ e, op j = .err e ∧ Utils.containsThrottlingMarker e = true ∧
      (j : Int) < max_retries - 1 ∧
      (Utils.retry_with_backoff op max_retries).waits.getD j 0 = (j + 1) * 2 ∧
      j + 2 ≤ (Utils.retry_with_backoff op max_retries).calls := by
  rcases le_or_lt 0 max_retries with hN | hN
  · have h2 := Utils.loop_waits_spec op max_retries max_retries.toNat 0 j
      (by omega) (by simpa [Utils.retry_with_backoff] using h)
    simpa [Utils.retry_with_backoff] using h2
  · exfalso
    revert h
    simp [Utils.retry_with_backoff, show max_retries.toNat = 0 by omega, Utils.loop]

/-- Claim C9: the `retry_with_backoff` of src/utils.py and the
`retry_with_backoff` of src/prompts.py are behaviorally equivalent: for
every operation and `max_retries`, both produce the same trace (same
number of invocations, same waits, same notices, same final outcome). -/
theorem C9_prompts_utils_equivalent (op : Nat → Outcome α) (max_retries : Int) :
    Prompts.retry_with_backoff op max_retries =
      Utils.retry_with_backoff op max_retries := by
  unfold Prompts.retry_with_backoff Utils.retry_with_backoff
  exact Prompts.loop_eq_utils op max_retries max_retries.toNat 0

/-- Claim C10: for `max_retries ≤ 0` (outside the spec's
positive-integer precondition) the loop body never runs: the operation
is invoked zero times and the wrapper returns Python's implicit `None`,
with no result and no failure. -/
theorem C10_nonpositive_retries_no_invocation (op : Nat → Outcome α)
    (max_retries : Int) (h : max_retries ≤ 0) :
    Utils.retry_with_backoff op max_retries = ⟨0, [], [], .implicitNone⟩ := by
  unfold Utils.retry_with_backoff
  rw [show max_retries.toNat = 0 by omega]
  exact Utils.loop_zero op max_retries 0

/-- Witness for claim C1 at a concrete input: an operation that always
raises a throttling error, run with `max_retries = 3`. -/
theorem C1_witness :
    0 < 3 ∧
    Utils.retry_with_backoff
        (fun _ => (Outcome.err "(ThrottlingException) Too many requests" : Outcome Nat))
        ((3 : Nat) : Int) =
      ⟨3, (List.range (3 - 1)).map (fun i => (i + 1) * 2),
          (List.range (3 - 1)).map (fun i => Utils.rateLimitNotice ((i + 1) * 2)),
          .raised "(ThrottlingException) Too many requests"⟩ :=
  ⟨by decide,
   C1_throttle_exhausts_all_attempts _
     (fun _ => "(ThrottlingException) Too many requests") 3
     (by decide) (fun _ => rfl)
     (fun _ => (by decide :
       Utils.containsThrottlingMarker "(ThrottlingException) Too many requests" = true))⟩

/-- Witness for claim C2 at a concrete input: an operation raising a
non-throttling error, run with `max_retries = 5`. -/
theorem C2_witness :
    (1 : Int) ≤ 5 ∧ ¬ Utils.throttlingMarker.toList <:+: "boom".toList ∧
    Utils.retry_with_backoff (fun _ => (Outcome.err "boom" : Outcome Nat)) 5 =
      ⟨1, [], [], .raised "boom"⟩ :=
  ⟨by decide, by decide,
   C2_terminal_failure_immediate _ "boom" 5 (by decide) rfl (by decide)⟩

/-- Witness for claim C3 at a concrete input: an operation returning 42
on its first attempt, run with `max_retries = 3`. -/
theorem C3_witness :
    (1 : Int) ≤ 3 ∧
    Utils.retry_with_backoff (fun _ => (Outcome.ok 42 : Outcome Nat)) 3 =
      ⟨1, [], [], .value 42⟩ :=
  ⟨by decide, C3_first_attempt_success _ 42 3 (by decide) rfl⟩

/-- Witness for claim C4 at a concrete input: a first-attempt throttling
failure with `max_retries = 2` triggers a second invocation. -/
theorem C4_witness :
    (2 : Int) ≤ 2 ∧
    (2 ≤ (Utils.retry_with_backoff
        (fun _ => (Outcome.err "(ThrottlingException) Too many requests" : Outcome Nat))
        2).calls ↔
      Utils.throttlingMarker.toList <:+:
        "(ThrottlingException) Too many requests".toList) :=
  ⟨by decide, C4_throttling_classification _ _ 2 (by decide) rfl⟩

/-- Witness for claim C5 at a concrete input: a terminal failure with
`max_retries = 1` is delivered exactly as raised by the only call. -/
theorem C5_witness :
    (Utils.retry_with_backoff (fun _ => (Outcome.err "kaboom" : Outcome Nat)) 1).outcome =
        .raised "kaboom" ∧
    1 ≤ (Utils.retry_with_backoff (fun _ => (Outcome.err "kaboom" : Outcome Nat)) 1).calls ∧
    (fun _ => (Outcome.err "kaboom" : Outcome Nat))
        ((Utils.retry_with_backoff (fun _ => (Outcome.err "kaboom" : Outcome Nat)) 1).calls - 1) =
      .err "kaboom" :=
  ⟨by decide, C5_raised_failure_is_last _ 1 "kaboom" (by decide)⟩

/-- Witness for claim C6 at the spec's concrete scenario: throttling on
attempts 1 and 2 and the value 42 on attempt 3, with `max_retries = 3`. -/
theorem C6_witness :
    2 < 3 ∧
    Utils.retry_with_backoff
        (fun i => if i < 2 then Outcome.err "(ThrottlingException) Too many requests"
          else (Outcome.ok 42 : Outcome Nat)) ((3 : Nat) : Int) =
      ⟨2 + 1, (List.range 2).map (fun i => (i + 1) * 2),
          (List.range 2).map (fun i => Utils.rateLimitNotice ((i + 1) * 2)),
          .value 42⟩ :=
  ⟨by decide,
   C6_late_success_after_throttling _
     (fun _ => "(ThrottlingException) Too many requests") 42 2 3
     (by decide) (fun i hi => by simp [hi])
     (fun _ _ => (by decide :
       Utils.containsThrottlingMarker "(ThrottlingException) Too many requests" = true)) rfl⟩

/-- Witness for claim C8 at a concrete input: the single wait of a
doubly-throttled run with `max_retries = 2`. -/
theorem C8_witness :
    0 < (Utils.retry_with_backoff
        (fun _ => (Outcome.err "(ThrottlingException) hit" : Outcome Nat)) 2).waits.length ∧
    ∃ e, (fun _ => (Outcome.err "(ThrottlingException) hit" : Outcome Nat)) 0 = .err e ∧
      Utils.containsThrottlingMarker e = true ∧
      ((0 : Nat) : Int) < 2 - 1 ∧
      (Utils.retry_with_backoff
        (fun _ => (Outcome.err "(ThrottlingException) hit" : Outcome Nat)) 2).waits.getD 0 0 =
        (0 + 1) * 2 ∧
      0 + 2 ≤ (Utils.retry_with_backoff
        (fun _ => (Outcome.err "(ThrottlingException) hit" : Outcome Nat)) 2).calls :=
  ⟨by decide,
   C8_wait_only_between_attempts
     (fun _ => (Outcome.err "(ThrottlingException) hit" : Outcome Nat)) 2 0 (by decide)⟩

/-- Witness for claim C10 at a concrete input: `max_retries = 0` makes
zero invocations and yields the implicit `None`. -/
theorem C10_witness :
    (0 : Int) ≤ 0 ∧
    Utils.retry_with_backoff (fun _ => (Outcome.ok 7 : Outcome Nat)) 0 =
      ⟨0, [], [], .implicitNone⟩ :=
  ⟨by decide, C10_nonpositive_retries_no_invocation _ 0 (by decide)⟩

end AwsPromptEng
